import Mathlib

/-!
Verification development for the `preroll` test-utilities module
(`src/test_utils/mod.rs`): a shallow embedding of the test-harness
construction functions (`create_server`, `create_client_and_postgres`),
the postgres transaction-attachment middleware, and the response
assertion helpers (`assert_json_error`, `assert_status_json`,
`assert_status`), together with theorems about their behaviour.

Conventions of the embedding:
* Rust panics (from `assert_eq!`, `assert!`, `.expect`, `.unwrap`,
  `panic!` calls) are modelled as the `panicked` outcome; errors
  returned with `?` as the `err` outcome.
* External collaborators (serde_json parsing, the sqlx pool factory,
  the database transaction) are passed in as explicit function
  arguments, so the theorems quantify over every possible behaviour
  of those collaborators.
* Machine integers (`u16` status codes, pool sizes) are `Nat`; no
  arithmetic here comes near any overflow boundary.
-/

namespace Preroll

/-- Outcome of a Rust test-helper call: `ok` (normal return), `err`
(an error value returned to the caller, e.g. via `?`), or `panicked`
(a Rust panic from `assert_eq!` / `.expect` / `.unwrap`). -/
inductive TUOutcome (α : Type) where
  | ok (a : α)
  | err (msg : String)
  | panicked (msg : String)
deriving DecidableEq, Repr

/-- `true` on the numeric values of the closed `http_types::StatusCode`
enumeration of valid HTTP status codes (the target of the fallible
`TryInto<StatusCode>` conversions in the source). -/
def validStatus (n : Nat) : Bool :=
  [100, 101, 102, 103,
   200, 201, 202, 203, 204, 205, 206, 207, 208, 226,
   300, 301, 302, 303, 304, 305, 307, 308,
   400, 401, 402, 403, 404, 405, 406, 407, 408, 409, 410, 411, 412,
   413, 414, 415, 416, 417, 418, 421, 422, 423, 424, 425, 426, 428,
   429, 431, 451,
   500, 501, 502, 503, 504, 505, 506, 507, 508, 510, 511].contains n

/-- The fallible conversion `status.try_into() : Result<StatusCode, _>`
used by every assertion helper on its expected-status argument. -/
def toStatusCode (n : Nat) : Option Nat :=
  if validStatus n then some n else none

/-- `StatusCode::is_server_error`: the numeric code lies in `500..600`. -/
def isServerError (s : Nat) : Bool :=
  decide (500 ≤ s) && decide (s < 600)

/-- Modelled from the spec: canonical reason phrases of the HTTP
status-code enumeration (`StatusCode::canonical_reason`, an external
collaborator from `http-types`, whose source is not part of this
repository); standard IANA phrases. -/
def canonicalReason : Nat → String
  | 100 => "Continue"
  | 101 => "Switching Protocols"
  | 102 => "Processing"
  | 103 => "Early Hints"
  | 200 => "OK"
  | 201 => "Created"
  | 202 => "Accepted"
  | 203 => "Non-Authoritative Information"
  | 204 => "No Content"
  | 205 => "Reset Content"
  | 206 => "Partial Content"
  | 207 => "Multi-Status"
  | 208 => "Already Reported"
  | 226 => "IM Used"
  | 300 => "Multiple Choices"
  | 301 => "Moved Permanently"
  | 302 => "Found"
  | 303 => "See Other"
  | 304 => "Not Modified"
  | 305 => "Use Proxy"
  | 307 => "Temporary Redirect"
  | 308 => "Permanent Redirect"
  | 400 => "Bad Request"
  | 401 => "Unauthorized"
  | 402 => "Payment Required"
  | 403 => "Forbidden"
  | 404 => "Not Found"
  | 405 => "Method Not Allowed"
  | 406 => "Not Acceptable"
  | 407 => "Proxy Authentication Required"
  | 408 => "Request Timeout"
  | 409 => "Conflict"
  | 410 => "Gone"
  | 411 => "Length Required"
  | 412 => "Precondition Failed"
  | 413 => "Payload Too Large"
  | 414 => "URI Too Long"
  | 415 => "Unsupported Media Type"
  | 416 => "Requested Range Not Satisfiable"
  | 417 => "Expectation Failed"
  | 418 => "I\x27m a teapot"
  | 421 => "Misdirected Request"
  | 422 => "Unprocessable Entity"
  | 423 => "Locked"
  | 424 => "Failed Dependency"
  | 425 => "Too Early"
  | 426 => "Upgrade Required"
  | 428 => "Precondition Required"
  | 429 => "Too Many Requests"
  | 431 => "Request Header Fields Too Large"
  | 451 => "Unavailable For Legal Reasons"
  | 500 => "Internal Server Error"
  | 501 => "Not Implemented"
  | 502 => "Bad Gateway"
  | 503 => "Service Unavailable"
  | 504 => "Gateway Timeout"
  | 505 => "HTTP Version Not Supported"
  | 506 => "Variant Also Negotiates"
  | 507 => "Insufficient Storage"
  | 508 => "Loop Detected"
  | 510 => "Not Extended"
  | 511 => "Network Authentication Required"
  | _ => ""

/-- Modelled from the spec: the structured error envelope produced by
the JSON error-formatting middleware (`crate::middleware::json_error::JsonError`,
whose defining module is outside this file); the field set is exactly
the one the assertion helpers read. -/
structure JsonError where
  title : String
  message : String
  status : Nat
  request_id : String
  correlation_id : Option String
deriving DecidableEq, Repr

/-- An HTTP response as seen by the assertion helpers: its status code,
the last value of the `X-Request-Id` and `X-Correlation-Id` headers when
present, and the body text read by `body_string`. -/
structure Response where
  status : Nat
  requestIdHeader : Option String
  correlationIdHeader : Option String
  body : String
deriving DecidableEq, Repr

/-- `assert_json_error(res, status, err_msg)`.  The serde_json parse
(`serde_json::from_str::<JsonError>`) is an external collaborator and is
passed in as `fromStr`, applied to the body text.  Mirrors the source
order: expected-status conversion, body read, parse (error returned via
`?` with the parse error and raw body in the message), then the
`assert_eq!` chain, then the `is_server_error` branch on the
correlation id. -/
def assert_json_error (fromStr : String → Except String JsonError)
    (res : Response) (status : Nat) (err_msg : String) : TUOutcome Unit :=
  match toStatusCode status with
  | none => .panicked "test must specify valid status code"
  | some st =>
    let str_response := res.body
    match fromStr str_response with
    | .error e =>
        .err ("Error, could not parse Response into JsonError! json err: \""
          ++ e ++ "\", response body: \"" ++ str_response ++ "\"")
    | .ok error =>
      if res.status ≠ st then
        .panicked "assertion failed: res.status() == status"
      else if error.title ≠ canonicalReason st then
        .panicked "assertion failed: error.title == status.canonical_reason()"
      else if error.message ≠ err_msg then
        .panicked "assertion failed: error.message == err_msg"
      else if error.status ≠ st then
        .panicked "assertion failed: error.status == status as u16"
      else
        match res.requestIdHeader with
        | none => .panicked "no entry found for key X-Request-Id"
        | some rid =>
          if error.request_id ≠ rid then
            .panicked "assertion failed: error.request_id == res X-Request-Id last"
          else if isServerError res.status then
            match error.correlation_id with
            | none => .panicked "Internal server errors must have correlation ids."
            | some cid =>
              match res.correlationIdHeader with
              | none => .panicked "no entry found for key X-Correlation-Id"
              | some hcid =>
                if cid ≠ hcid then
                  .panicked "assertion failed: error.correlation_id == res X-Correlation-Id last"
                else .ok ()
          else
            if error.correlation_id ≠ none then
              .panicked "assertion failed: error.correlation_id == None"
            else
              match res.correlationIdHeader with
              | some _ => .panicked "assertion failed: res.header X-Correlation-Id is_none"
              | none => .ok ()

/-- `assert_status(res, status)`: expected-status conversion, body read,
then a single `assert_eq!` on the status with the body in the failure
message. -/
def assert_status (res : Response) (status : Nat) : TUOutcome Unit :=
  match toStatusCode status with
  | none => .panicked "test must specify valid status code"
  | some st =>
    let body := res.body
    if res.status ≠ st then
      .panicked ("assertion failed: res.status() == status, Response body: " ++ body)
    else .ok ()

/-- `assert_status_json::<StructType>(res, status)`.  The serde_json
deserializer for the target type and `std::any::type_name::<StructType>()`
are passed in as `fromStrT` and `typeName`. -/
def assert_status_json {T : Type} (fromStrT : String → Except String T)
    (typeName : String) (res : Response) (status : Nat) : TUOutcome T :=
  match toStatusCode status with
  | none => .panicked "test must specify valid status code"
  | some st =>
    let body := res.body
    if res.status ≠ st then
      .panicked ("assertion failed: res.status() == status, Response body: " ++ body)
    else
      match fromStrT body with
      | .error e =>
          .panicked ("Error: \"" ++ e ++ "\" Body was not parseable into a "
            ++ typeName ++ ", body was: \"" ++ body ++ "\"")
      | .ok v => .ok v

/-- `log::LevelFilter`, the target of the `LOGLEVEL` parse. -/
inductive LevelFilter where
  | off | error | warn | info | debug | trace
deriving DecidableEq, Repr

/-- `str::eq_ignore_ascii_case`, on the character lists of the two
strings (ASCII case folding). -/
def eq_ignore_ascii_case (a b : String) : Bool :=
  a.data.map Char.toLower == b.data.map Char.toLower

/-- `str::starts_with(pat)`, on the character lists of the two
strings. -/
def starts_with (s pat : String) : Bool :=
  pat.data.isPrefixOf s.data

/-- `log::LevelFilter::from_str`: case-insensitive match against the
six level names, `None` otherwise (the `Err` of the Rust `FromStr`). -/
def parseLevelFilter (s : String) : Option LevelFilter :=
  if eq_ignore_ascii_case s "off" then some .off
  else if eq_ignore_ascii_case s "error" then some .error
  else if eq_ignore_ascii_case s "warn" then some .warn
  else if eq_ignore_ascii_case s "info" then some .info
  else if eq_ignore_ascii_case s "debug" then some .debug
  else if eq_ignore_ascii_case s "trace" then some .trace
  else none

inductive LogFormat where
  | json | pretty
deriving DecidableEq, Repr

/-- The configuration an `env_logger::builder()` chain installs when its
`try_init` is the first one to run: output format, severity filter, and
whether `write_style(Never)` was set. -/
structure LoggerConfig where
  format : LogFormat
  level : LevelFilter
  writeStyleNever : Bool
deriving DecidableEq, Repr

/-- A shared-ownership handle (`Arc`) to the `RwLock`-guarded connection
state: only the allocation identity, since cloning an `Arc` copies no
data. -/
structure ConnectionWrap where
  ref : Nat
deriving DecidableEq, Repr

/-- `Arc::clone`: a new handle to the same allocation. -/
def ConnectionWrap.clone (w : ConnectionWrap) : ConnectionWrap :=
  ⟨w.ref⟩

/-- Modelled from the spec: the request-scoped connection state
(`crate::middleware::postgres::ConnectionWrapInner`, defined outside this
file): `Transacting(handle)` or `Disconnected`.  The transaction handle
is abstract. -/
inductive ConnectionWrapInner where
  | Transacting (tx : Nat)
  | Disconnected
deriving DecidableEq, Repr

/-- A middleware installed with `server.with(..)`.  The postgres test
middleware carries its shared `ConnectionWrap` handle. -/
inductive MW where
  | requestId
  | logMW
  | jsonErrorMW
  | postgresTest (w : ConnectionWrap)
deriving DecidableEq, Repr

/-- A `tide::Server`: its (Arc-wrapped) application state, middlewares
in installation order, and registered route paths in registration
order. -/
structure ServerModel (σ : Type) where
  state : σ
  middlewares : List MW
  routes : List String
deriving DecidableEq, Repr

/-- The server `create_server` has built just before it invokes the
caller's `setup_routes_fn`: state installed, the three fixed middlewares
in source order, and the built-in health route registered. -/
def server0 {σ : Type} (st : σ) : ServerModel σ :=
  { state := st
    middlewares := [.requestId, .logMW, .jsonErrorMW]
    routes := ["/monitor/ping"] }

/-- The `log_level` binding of `create_server`: `env::var("LOGLEVEL")`
parsed with `.expect(..)` on failure (a panic), defaulting to `Off` when
the variable is unset. -/
def loglevel_from_env (env : String → Option String) : TUOutcome LevelFilter :=
  match env "LOGLEVEL" with
  | some v =>
    match parseLevelFilter v with
    | some l => .ok l
    | none => .panicked "LOGLEVEL must be a valid log level."
  | none => .ok .off

/-- `create_server(state, setup_routes_fn)`.  The process environment is
the map `env` (after `dotenv` has loaded any `.env` file); the
process-wide `env_logger` state is threaded explicitly as
`logger : Option LoggerConfig` (`none` = not yet initialized), since
`try_init().ok()` succeeds only on the first call and every later
failure is discarded.  The caller's `setup_routes_fn`, which receives a
mutable reference to the server, is the function `f`. -/
def create_server {σ : Type} (env : String → Option String)
    (logger : Option LoggerConfig) (st : σ)
    (f : ServerModel σ → ServerModel σ) :
    TUOutcome (ServerModel σ × Option LoggerConfig) :=
  match loglevel_from_env env with
  | .panicked m => .panicked m
  | .err m => .err m
  | .ok log_level =>
    let environment := (env "ENVIRONMENT").getD "development"
    let cfg : LoggerConfig :=
      if starts_with environment "prod" then
        ⟨.json, log_level, true⟩
      else
        ⟨.pretty, log_level, false⟩
    let logger' : Option LoggerConfig :=
      match logger with
      | some c => some c
      | none => some cfg
    .ok (f (server0 st), logger')

/-- A `surf::Client` bound directly to an in-process server. -/
structure ClientModel (σ : Type) where
  server : ServerModel σ
  baseUrl : String
deriving DecidableEq, Repr

/-- `create_client(state, setup_routes_fn)`: build the server and hand
back a client connected to it, base URL `http://localhost:8080`
(address not actually used). -/
def create_client {σ : Type} (env : String → Option String)
    (logger : Option LoggerConfig) (st : σ)
    (f : ServerModel σ → ServerModel σ) :
    TUOutcome (ClientModel σ × Option LoggerConfig) :=
  match create_server env logger st f with
  | .ok (server, logger') => .ok (⟨server, "http://localhost:8080"⟩, logger')
  | .err m => .err m
  | .panicked m => .panicked m

/-- `PgConnectOptions::new().host(..).database(..)` plus the
`log_statements(Debug)` tweak. -/
structure ConnectOpts where
  host : String
  database : String
  logStatementsDebug : Bool
deriving DecidableEq, Repr

/-- `PgPoolOptions::new().max_connections(..)`. -/
structure PoolOpts where
  maxConnections : Nat
deriving DecidableEq, Repr

/-- An opened `sqlx` pool (abstract handle). -/
structure PgPool where
  id : Nat
deriving DecidableEq, Repr

/-- Externally observable steps of `create_client_and_postgres` against
its database collaborators. -/
inductive PgEvent where
  | poolConnectAttempt (po : PoolOpts) (co : ConnectOpts)
  | beginAttempt (p : PgPool)
  | installPostgresMW (w : ConnectionWrap)
deriving DecidableEq, Repr

/-- Result of `create_client_and_postgres`: the outcome handed to the
caller, the `Arc<RwLock<..>>` allocations made (the heap the
`ConnectionWrap.ref` fields index), and the database-side event
trace. -/
structure PgBuildResult (σ : Type) where
  outcome : TUOutcome ((ClientModel σ × ConnectionWrap) × Option LoggerConfig)
  heap : List ConnectionWrapInner
  events : List PgEvent
deriving DecidableEq, Repr

/-- `create_client_and_postgres(state, setup_routes_fn)`.  The sqlx
collaborators are the arguments `connect` (`PgPoolOptions::connect_with`)
and `beginTx` (`Pool::begin`); both are fallible and their errors are
returned to the caller via `?`. -/
def create_client_and_postgres {σ : Type} (env : String → Option String)
    (logger : Option LoggerConfig) (st : σ)
    (f : ServerModel σ → ServerModel σ)
    (connect : PoolOpts → ConnectOpts → Except String PgPool)
    (beginTx : PgPool → Except String Nat) : PgBuildResult σ :=
  match create_server env logger st f with
  | .panicked m => ⟨.panicked m, [], []⟩
  | .err m => ⟨.err m, [], []⟩
  | .ok (server, logger') =>
    match connect ⟨5⟩ ⟨"localhost", "database_test", true⟩ with
    | .error e =>
        ⟨.err e, [],
         [.poolConnectAttempt ⟨5⟩ ⟨"localhost", "database_test", true⟩]⟩
    | .ok pg_pool =>
      match beginTx pg_pool with
      | .error e =>
          ⟨.err e, [],
           [.poolConnectAttempt ⟨5⟩ ⟨"localhost", "database_test", true⟩,
            .beginAttempt pg_pool]⟩
      | .ok tx =>
        ⟨.ok ((⟨{ server with
                    middlewares :=
                      server.middlewares
                        ++ [.postgresTest (ConnectionWrap.clone ⟨0⟩)] },
                "http://localhost:8080"⟩, ⟨0⟩), logger'),
         [ConnectionWrapInner.Transacting tx],
         [.poolConnectAttempt ⟨5⟩ ⟨"localhost", "database_test", true⟩,
          .beginAttempt pg_pool,
          .installPostgresMW (ConnectionWrap.clone ⟨0⟩)]⟩

/-- A `tide::Request`: an opaque payload and the extension slot the
postgres middleware writes (`req.set_ext`). -/
structure Request (ρ : Type) where
  payload : ρ
  ext : Option ConnectionWrap
deriving DecidableEq, Repr

/-- `Request::set_ext` for the `ConnectionWrap` extension. -/
def Request.setExt {ρ : Type} (req : Request ρ) (w : ConnectionWrap) :
    Request ρ :=
  { req with ext := some w }

/-- `PostgresTestMiddleware::handle`: attach a clone of the held
`ConnectionWrap` to the request, run the rest of the chain, and wrap its
response in `Ok`.  `next` is the remainder of the middleware chain,
returning a response of abstract type `α`. -/
def postgresTestMiddlewareHandle {ρ α : Type} (selfWrap : ConnectionWrap)
    (req : Request ρ) (next : Request ρ → α) : Except String α :=
  .ok (next (req.setExt selfWrap.clone))

lemma validStatus_lt_600 (s : Nat) (h : validStatus s = true) : s < 600 := by
  rw [validStatus] at h
  have hm := List.mem_of_elem_eq_true h
  fin_cases hm <;> omega

lemma isServerError_imp_500_le (s : Nat) (h : isServerError s = true) : 500 ≤ s := by
  simp only [isServerError, Bool.and_eq_true, decide_eq_true_eq] at h
  exact h.1

lemma not_isServerError_imp_lt_500 (s : Nat) (hv : validStatus s = true)
    (h : isServerError s = false) : s < 500 := by
  have h6 := validStatus_lt_600 s hv
  by_cases h5 : 500 ≤ s
  · exfalso
    simp [isServerError, h5, h6] at h
  · omega

/-- C1: for every response whose body parses as the `JsonError` envelope
and on which `assert_json_error` succeeds (i.e. all its assertions held),
a server-error status (≥ 500) forces the body's `correlation_id` to be
present and equal to the response's correlation-id header, and a status
below 500 forces `correlation_id` to be absent from the body and the
correlation-id header to be absent from the response. -/
theorem assert_json_error_correlation_contract
    (fromStr : String → Except String JsonError) (res : Response)
    (status : Nat) (msg : String) (e : JsonError)
    (hvres : validStatus res.status = true)
    (hp : fromStr res.body = .ok e)
    (hok : assert_json_error fromStr res status msg = .ok ()) :
    (500 ≤ res.status →
      res.correlationIdHeader = e.correlation_id ∧ e.correlation_id.isSome = true) ∧
    (res.status < 500 →
      e.correlation_id = none ∧ res.correlationIdHeader = none) := by
  simp only [assert_json_error] at hok
  rw [hp] at hok
  cases ht : toStatusCode status with
  | none => rw [ht] at hok; exact absurd hok (by simp)
  | some st =>
    rw [ht] at hok
    repeat' split at hok
    all_goals simp_all
    · exact isServerError_imp_500_le _ (by assumption)
    · have := not_isServerError_imp_lt_500 _ hvres (by assumption)
      omega

/-- C3: whenever `assert_json_error` succeeds on a response whose body
parsed as the envelope, the response status equals the expected status,
the body's `title` equals the expected status's canonical reason phrase,
its `message` equals the expected message, its `status` field equals the
numeric status, and its `request_id` equals the response's request-id
header value. -/
theorem assert_json_error_field_assertions
    (fromStr : String → Except String JsonError) (res : Response)
    (status : Nat) (msg : String) (e : JsonError)
    (hv : validStatus status = true)
    (hp : fromStr res.body = .ok e)
    (hok : assert_json_error fromStr res status msg = .ok ()) :
    res.status = status ∧ e.title = canonicalReason status ∧
    e.message = msg ∧ e.status = status ∧
    res.requestIdHeader = some e.request_id := by
  simp only [assert_json_error, toStatusCode, hv, if_true] at hok
  rw [hp] at hok
  repeat' split at hok
  all_goals simp_all

/-- C4: when the body does not parse as the `JsonError` envelope,
`assert_json_error` returns (never panics on) an error whose message
embeds both the parse error and the raw body, and performs none of the
field assertions: its result is the same for every expected status and
message. -/
theorem assert_json_error_parse_failure
    (fromStr : String → Except String JsonError) (res : Response)
    (status status2 : Nat) (msg msg2 : String) (e : String)
    (hv : validStatus status = true)
    (hv2 : validStatus status2 = true)
    (hp : fromStr res.body = .error e) :
    assert_json_error fromStr res status msg =
      .err ("Error, could not parse Response into JsonError! json err: \""
        ++ e ++ "\", response body: \"" ++ res.body ++ "\"") ∧
    assert_json_error fromStr res status msg =
      assert_json_error fromStr res status2 msg2 := by
  constructor
  · simp only [assert_json_error, toStatusCode, hv, if_true]
    rw [hp]
  · simp only [assert_json_error, toStatusCode, hv, hv2, if_true]
    rw [hp]

lemma create_server_ok_eq {σ : Type} (env : String → Option String)
    (logger : Option LoggerConfig) (st : σ)
    (f : ServerModel σ → ServerModel σ) (server : ServerModel σ)
    (l' : Option LoggerConfig)
    (hs : create_server env logger st f = .ok (server, l')) :
    server = f (server0 st) := by
  cases h1 : loglevel_from_env env with
  | ok l =>
    simp [create_server, h1] at hs
    exact hs.1.symm
  | err m => simp [create_server, h1] at hs
  | panicked m => simp [create_server, h1] at hs

/-- C7: if the `LOGLEVEL` environment variable is set to a string that
does not parse as a log level, `create_server` (and so every harness
constructor) fails fatally with the configuration panic, for any prior
logger state, state value and route-setup function. -/
theorem create_server_invalid_loglevel {σ : Type}
    (env : String → Option String) (logger : Option LoggerConfig) (st : σ)
    (f : ServerModel σ → ServerModel σ) (s : String)
    (h1 : env "LOGLEVEL" = some s) (h2 : parseLevelFilter s = none) :
    create_server env logger st f =
      .panicked "LOGLEVEL must be a valid log level." := by
  simp only [create_server, loglevel_from_env, h1, h2]

/-- C8: with `LOGLEVEL` unset the installed severity filter is `off`;
with `ENVIRONMENT` unset the environment name defaults to
`development`, selecting pretty formatting; a value beginning with
`prod` selects JSON formatting and any other value pretty formatting;
and when the process-wide logger is already initialized its
configuration is left unchanged while construction still succeeds
(`try_init` failure ignored, first initialization wins). -/
theorem create_server_logging_defaults {σ : Type}
    (env : String → Option String) (st : σ)
    (f : ServerModel σ → ServerModel σ) (c : LoggerConfig) (v : String)
    (h0 : env "LOGLEVEL" = none) :
    (env "ENVIRONMENT" = none →
      create_server env none st f =
        .ok (f (server0 st), some ⟨.pretty, .off, false⟩)) ∧
    (env "ENVIRONMENT" = some v → starts_with v "prod" = true →
      create_server env none st f =
        .ok (f (server0 st), some ⟨.json, .off, true⟩)) ∧
    (env "ENVIRONMENT" = some v → starts_with v "prod" = false →
      create_server env none st f =
        .ok (f (server0 st), some ⟨.pretty, .off, false⟩)) ∧
    (create_server env (some c) st f = .ok (f (server0 st), some c)) := by
  refine ⟨?_, ?_, ?_, ?_⟩
  · intro h1
    simp [create_server, loglevel_from_env, h0, h1, starts_with]
  · intro h1 h2
    simp [create_server, loglevel_from_env, h0, h1, h2]
  · intro h1 h2
    simp [create_server, loglevel_from_env, h0, h1, h2]
  · simp [create_server, loglevel_from_env, h0]

/-- C2: every test server is built with the fixed middleware chain
request-id, logging, JSON error-formatting in that order, with the
health route `/monitor/ping` already registered, before the caller's
route-setup function `f` is applied (exactly once, to that server); in
the isolated-db build the postgres transaction middleware is appended
after everything `f` left in place. -/
theorem harness_middleware_order {σ : Type}
    (env : String → Option String) (logger : Option LoggerConfig) (st : σ)
    (f : ServerModel σ → ServerModel σ) (server : ServerModel σ)
    (l' : Option LoggerConfig)
    (connect : PoolOpts → ConnectOpts → Except String PgPool)
    (beginTx : PgPool → Except String Nat) (pool : PgPool) (tx : Nat)
    (hs : create_server env logger st f = .ok (server, l')) :
    server = f (server0 st) ∧
    (server0 st).middlewares = [.requestId, .logMW, .jsonErrorMW] ∧
    (server0 st).routes = ["/monitor/ping"] ∧
    (connect ⟨5⟩ ⟨"localhost", "database_test", true⟩ = .ok pool →
      beginTx pool = .ok tx →
      (create_client_and_postgres env logger st f connect beginTx).outcome =
        .ok ((⟨{ server with
                   middlewares := server.middlewares ++ [.postgresTest ⟨0⟩] },
               "http://localhost:8080"⟩, ⟨0⟩), l')) := by
  refine ⟨create_server_ok_eq env logger st f server l' hs, rfl, rfl, ?_⟩
  intro hc hb
  simp only [create_client_and_postgres, hs, hc, hb, ConnectionWrap.clone]

/-- C5: the isolated-db constructor opens the pool, begins one
transaction (the trace holds exactly one `beginAttempt`), allocates the
`ConnectionWrapper` in state `Transacting` holding that transaction
handle, installs the postgres middleware and returns the wrapper; a
pool-connect or transaction-begin failure is returned unchanged to the
caller, with no retry and with no wrapper allocated. -/
theorem create_client_and_postgres_contract {σ : Type}
    (env : String → Option String) (logger : Option LoggerConfig) (st : σ)
    (f : ServerModel σ → ServerModel σ) (server : ServerModel σ)
    (l' : Option LoggerConfig)
    (connect : PoolOpts → ConnectOpts → Except String PgPool)
    (beginTx : PgPool → Except String Nat) (pool : PgPool) (tx : Nat)
    (e1 e2 : String)
    (hs : create_server env logger st f = .ok (server, l')) :
    (connect ⟨5⟩ ⟨"localhost", "database_test", true⟩ = .error e1 →
      create_client_and_postgres env logger st f connect beginTx =
        ⟨.err e1, [],
         [.poolConnectAttempt ⟨5⟩ ⟨"localhost", "database_test", true⟩]⟩) ∧
    (connect ⟨5⟩ ⟨"localhost", "database_test", true⟩ = .ok pool →
      beginTx pool = .error e2 →
      create_client_and_postgres env logger st f connect beginTx =
        ⟨.err e2, [],
         [.poolConnectAttempt ⟨5⟩ ⟨"localhost", "database_test", true⟩,
          .beginAttempt pool]⟩) ∧
    (connect ⟨5⟩ ⟨"localhost", "database_test", true⟩ = .ok pool →
      beginTx pool = .ok tx →
      create_client_and_postgres env logger st f connect beginTx =
        ⟨.ok ((⟨{ server with
                    middlewares := server.middlewares ++ [.postgresTest ⟨0⟩] },
                "http://localhost:8080"⟩, ⟨0⟩), l'),
         [ConnectionWrapInner.Transacting tx],
         [.poolConnectAttempt ⟨5⟩ ⟨"localhost", "database_test", true⟩,
          .beginAttempt pool, .installPostgresMW ⟨0⟩]⟩) := by
  refine ⟨?_, ?_, ?_⟩
  · intro hc
    simp only [create_client_and_postgres, hs, hc]
  · intro hc hb
    simp only [create_client_and_postgres, hs, hc, hb]
  · intro hc hb
    simp only [create_client_and_postgres, hs, hc, hb, ConnectionWrap.clone]

/-- C6: the postgres transaction middleware attaches a clone of its
shared `ConnectionWrap` handle (the same allocation, no data copied) to
the request's extension slot, invokes the rest of the chain on that
request, returns its response unchanged wrapped in `Ok`, and can never
produce an error of its own. -/
theorem postgres_middleware_contract {ρ α : Type} (w : ConnectionWrap)
    (req : Request ρ) (next : Request ρ → α) :
    postgresTestMiddlewareHandle w req next = .ok (next (req.setExt w)) ∧
    (req.setExt w).ext = some w ∧
    w.clone = w ∧
    (∀ msg : String, postgresTestMiddlewareHandle w req next ≠ .error msg) := by
  refine ⟨rfl, rfl, rfl, ?_⟩
  intro msg h
  exact Except.noConfusion h

/-- C9: `assert_status` succeeds exactly on status equality, and on
mismatch panics with a message embedding the raw body;
`assert_status_json` panics the same way on a status mismatch, panics
with a diagnostic embedding the target type name, the parse error and
the raw body when deserialization fails, and returns the deserialized
value on success. -/
theorem assert_status_helpers_contract {T : Type}
    (fromStrT : String → Except String T) (typeName : String)
    (res : Response) (status : Nat) (v : T) (e : String)
    (hv : validStatus status = true) :
    (res.status = status → assert_status res status = .ok ()) ∧
    (res.status ≠ status →
      assert_status res status =
        .panicked ("assertion failed: res.status() == status, Response body: "
          ++ res.body)) ∧
    (res.status ≠ status →
      assert_status_json fromStrT typeName res status =
        .panicked ("assertion failed: res.status() == status, Response body: "
          ++ res.body)) ∧
    (res.status = status → fromStrT res.body = .error e →
      assert_status_json fromStrT typeName res status =
        .panicked ("Error: \"" ++ e ++ "\" Body was not parseable into a "
          ++ typeName ++ ", body was: \"" ++ res.body ++ "\"")) ∧
    (res.status = status → fromStrT res.body = .ok v →
      assert_status_json fromStrT typeName res status = .ok v) := by
  refine ⟨?_, ?_, ?_, ?_, ?_⟩
  · intro h1
    simp [assert_status, toStatusCode, hv, h1]
  · intro h1
    simp [assert_status, toStatusCode, hv, h1]
  · intro h1
    simp [assert_status_json, toStatusCode, hv, h1]
  · intro h1 h2
    simp [assert_status_json, toStatusCode, hv, h1, h2]
  · intro h1 h2
    simp [assert_status_json, toStatusCode, hv, h1, h2]

/-- C10: every pool-connect the isolated-db constructor ever attempts,
whatever the environment, logger state, application state, route-setup
function or database collaborators, uses the hard-coded target: host
`localhost`, database `database_test`, at most 5 connections; no
argument of the public constructor can change it. -/
theorem pg_connect_opts_hardcoded {σ : Type}
    (env : String → Option String) (logger : Option LoggerConfig) (st : σ)
    (f : ServerModel σ → ServerModel σ)
    (connect : PoolOpts → ConnectOpts → Except String PgPool)
    (beginTx : PgPool → Except String Nat) (po : PoolOpts) (co : ConnectOpts)
    (hm : PgEvent.poolConnectAttempt po co ∈
      (create_client_and_postgres env logger st f connect beginTx).events) :
    po = ⟨5⟩ ∧ co = ⟨"localhost", "database_test", true⟩ := by
  unfold create_client_and_postgres at hm
  split at hm
  · simp at hm
  · simp at hm
  · split at hm
    · simp at hm
      exact hm
    · split at hm
      · simp at hm
        exact hm
      · simp at hm
        exact hm

/-! Concrete instances used to witness the theorems above. -/

def jerr404 : JsonError :=
  ⟨"Not Found", "(no additional context)", 404, "req-abc", none⟩

def res404 : Response := ⟨404, some "req-abc", none, "rawbody"⟩

def fromStrOk404 : String → Except String JsonError := fun _ => .ok jerr404

def jerr500 : JsonError :=
  ⟨"Internal Server Error", "boom", 500, "req-xyz", some "corr-1"⟩

def res500 : Response := ⟨500, some "req-xyz", some "corr-1", "raw5"⟩

def fromStrOk500 : String → Except String JsonError := fun _ => .ok jerr500

def fromStrBad : String → Except String JsonError :=
  fun _ => .error "expected value"

def resBad : Response := ⟨404, none, none, "not json"⟩

def resPing : Response := ⟨200, none, none, "pong"⟩

def envNone : String → Option String := fun _ => none

def envBadLoglevel : String → Option String :=
  fun k => if k = "LOGLEVEL" then some "verbose" else none

def connectOk : PoolOpts → ConnectOpts → Except String PgPool :=
  fun _ _ => .ok ⟨1⟩

def beginOk : PgPool → Except String Nat := fun _ => .ok 7

/-- Witness for C1 at a concrete 500 response. -/
theorem assert_json_error_correlation_contract_witness :
    res500.correlationIdHeader = jerr500.correlation_id ∧
    jerr500.correlation_id.isSome = true :=
  (assert_json_error_correlation_contract fromStrOk500 res500 500 "boom"
    jerr500 (by decide) rfl (by decide)).1 (by decide)

/-- Witness for C2 at a concrete isolated-db build. -/
theorem harness_middleware_order_witness :
    (create_client_and_postgres envNone none () id connectOk beginOk).outcome =
      .ok ((⟨{ server0 () with
                 middlewares :=
                   (server0 ()).middlewares ++ [.postgresTest ⟨0⟩] },
             "http://localhost:8080"⟩, ⟨0⟩),
           some ⟨.pretty, .off, false⟩) :=
  (harness_middleware_order envNone none () id (server0 ())
    (some ⟨.pretty, .off, false⟩) connectOk beginOk ⟨1⟩ 7
    (by decide)).2.2.2 rfl rfl

/-- Witness for C3 at a concrete 404 response. -/
theorem assert_json_error_field_assertions_witness :
    res404.status = 404 ∧ jerr404.title = canonicalReason 404 ∧
    jerr404.message = "(no additional context)" ∧ jerr404.status = 404 ∧
    res404.requestIdHeader = some jerr404.request_id :=
  assert_json_error_field_assertions fromStrOk404 res404 404
    "(no additional context)" jerr404 (by decide) rfl (by decide)

/-- Witness for C4 at a concrete unparsable body. -/
theorem assert_json_error_parse_failure_witness :
    assert_json_error fromStrBad resBad 404 "m" =
      .err ("Error, could not parse Response into JsonError! json err: \""
        ++ "expected value" ++ "\", response body: \"" ++ resBad.body ++ "\"") ∧
    assert_json_error fromStrBad resBad 404 "m" =
      assert_json_error fromStrBad resBad 500 "other" :=
  assert_json_error_parse_failure fromStrBad resBad 404 500 "m" "other"
    "expected value" (by decide) (by decide) rfl

/-- Witness for C5 at a concrete successful isolated-db build. -/
theorem create_client_and_postgres_contract_witness :
    create_client_and_postgres envNone none () id connectOk beginOk =
      ⟨.ok ((⟨{ server0 () with
                  middlewares :=
                    (server0 ()).middlewares ++ [.postgresTest ⟨0⟩] },
              "http://localhost:8080"⟩, ⟨0⟩),
            some ⟨.pretty, .off, false⟩),
       [ConnectionWrapInner.Transacting 7],
       [.poolConnectAttempt ⟨5⟩ ⟨"localhost", "database_test", true⟩,
        .beginAttempt ⟨1⟩, .installPostgresMW ⟨0⟩]⟩ :=
  (create_client_and_postgres_contract envNone none () id (server0 ())
    (some ⟨.pretty, .off, false⟩) connectOk beginOk ⟨1⟩ 7 "e1" "e2"
    (by decide)).2.2 rfl rfl

/-- Witness for C7 with `LOGLEVEL=verbose`. -/
theorem create_server_invalid_loglevel_witness :
    create_server envBadLoglevel none () id =
      .panicked "LOGLEVEL must be a valid log level." :=
  create_server_invalid_loglevel envBadLoglevel none () id "verbose"
    (by decide) (by decide)

/-- Witness for C8 with both variables unset. -/
theorem create_server_logging_defaults_witness :
    create_server envNone none () id =
      .ok (server0 (), some ⟨.pretty, .off, false⟩) :=
  (create_server_logging_defaults envNone () id ⟨.pretty, .off, false⟩
    "prod-eu" rfl).1 rfl

/-- Witness for C9 at a status mismatch on a concrete response. -/
theorem assert_status_helpers_contract_witness :
    assert_status resPing 201 =
      .panicked ("assertion failed: res.status() == status, Response body: "
        ++ resPing.body) :=
  (assert_status_helpers_contract (fun _ => Except.ok 7) "u64" resPing 201 7 "e"
    (by decide)).2.1 (by decide)

/-- Witness for C10 at a concrete successful isolated-db build. -/
theorem pg_connect_opts_hardcoded_witness :
    (⟨5⟩ : PoolOpts) = ⟨5⟩ ∧
    (⟨"localhost", "database_test", true⟩ : ConnectOpts) =
      ⟨"localhost", "database_test", true⟩ :=
  pg_connect_opts_hardcoded envNone none () id connectOk beginOk ⟨5⟩
    ⟨"localhost", "database_test", true⟩ (by decide)

end Preroll
